import Mathlib

/-!
Verification development for the Bluesky video-publication pipeline of
main_timelapse_script.py (class FixedBlueSkyClient and
SunriseTimelapse.post_to_bluesky).

The network-touching Python functions are shallowly embedded as pure Lean
functions over an explicit environment of server responses.  Each function
returns its Python result together with the list of network requests it
issued, in order.  Python `None`/`False` failure returns are modelled by
`Option`/`Bool`; where the source distinguishes failure causes only through
distinct diagnostics printed before `return None`, the model uses a sum type
whose variants correspond one-to-one to those diagnostic branches.
-/

/-- The kinds of HTTP requests the pipeline can issue, one per `requests.*`
call site in the embedded functions. -/
inductive NetCall where
  | createSession
  | directoryLookup
  | getServiceAuth
  | uploadVideo
  | getJobStatus
  | createRecord
deriving DecidableEq

/-- Opaque content-addressed blob reference, passed through unchanged by the
source (it only moves the JSON dict around). -/
structure Blob where
  raw : String
deriving DecidableEq

/-- Aspect-ratio dict, passed through opaquely when present. -/
structure AspectDims where
  width : Nat
  height : Nat
deriving DecidableEq

/-- One entry of the DID document service list, as read by get_user_pds_did:
`service.get('id')` (absent key gives Python None) and
`service.get('serviceEndpoint', '')` (absent key gives the empty string). -/
structure DirService where
  id : Option String
  serviceEndpoint : String
deriving DecidableEq

/-- Response to the plc.directory lookup: HTTP status and the parsed
service list of the DID document. -/
structure DirectoryResponse where
  httpStatus : Nat
  services : List DirService
deriving DecidableEq

/-- Response to com.atproto.server.getServiceAuth. -/
structure ServiceAuthResponse where
  httpStatus : Nat
  token : String
deriving DecidableEq

/-- Response to app.bsky.video.uploadVideo: status plus the optional jobId
and state fields of the JSON body (absent keys give Python None). -/
structure UploadResponse where
  httpStatus : Nat
  jobId : Option String
  state : Option String
deriving DecidableEq

/-- Response to one app.bsky.video.getJobStatus request.  The fields mirror
`job_status = response.json().get("jobStatus", {})` followed by `.get` on
the keys state, blob and error: a missing nested object or key is `none`. -/
structure JobStatusResponse where
  httpStatus : Nat
  state : Option String
  blob : Option Blob
  error : Option String
deriving DecidableEq

/-- Response to com.atproto.server.createSession. -/
structure SessionResponse where
  httpStatus : Nat
  did : String
  handle : String
  accessJwt : String
deriving DecidableEq

/-- Response to com.atproto.repo.createRecord. -/
structure CreateRecordResponse where
  httpStatus : Nat
  uri : String
deriving DecidableEq

/-- Deterministic environment of server responses for one publish attempt.
`jobResps i` is the response to the i-th getJobStatus request issued by the
polling loop; `completedJob` is the response to the single getJobStatus
request of get_completed_job_blob on the 409 path. -/
structure Env where
  session : SessionResponse
  directory : DirectoryResponse
  serviceAuth : ServiceAuthResponse
  upload : UploadResponse
  jobResps : Nat → JobStatusResponse
  completedJob : JobStatusResponse
  createRecord : CreateRecordResponse

/-- Python truthiness of an optional string: None and the empty string are
falsy. -/
def truthy (s : Option String) : Bool :=
  match s with
  | none => false
  | some v => v ≠ ""

/-- Scan for the first occurrence of the scheme separator and drop
everything up to and including it, mirroring that urlparse only yields a
netloc when the URL carries one. -/
def dropScheme : List Char → Option (List Char)
  | [] => none
  | ':' :: '/' :: '/' :: rest => some rest
  | _ :: rest => dropScheme rest

/-- Take the host part: everything up to the first path, query or fragment
delimiter. -/
def takeHost (cs : List Char) : List Char :=
  cs.takeWhile (fun c => !(c == '/' || c == '?' || c == '#'))

/-- Model of `urllib.parse.urlparse(url).netloc` for the URLs this code
meets: the component between the scheme separator and the next delimiter,
empty when the URL has no scheme separator. -/
def netloc (url : String) : String :=
  match dropScheme url.data with
  | some rest => ⟨takeHost rest⟩
  | none => ""

/-- The service-list scan of get_user_pds_did: the first entry whose id is
the atproto_pds marker and whose endpoint is truthy yields the derived
audience DID; a matching entry with an empty endpoint is skipped and the
scan continues. -/
def findPds : List DirService → Option String
  | [] => none
  | s :: rest =>
    if s.id = some "#atproto_pds" then
      if s.serviceEndpoint ≠ "" then some ("did:web:" ++ netloc s.serviceEndpoint)
      else findPds rest
    else findPds rest

/-- get_user_pds_did: one directory lookup; on HTTP 200 scan the service
list, otherwise fail (return None). -/
def get_user_pds_did (dir : DirectoryResponse) : Option String × List NetCall :=
  ((if dir.httpStatus = 200 then findPds dir.services else none),
   [NetCall.directoryLookup])

/-- get_service_auth: resolve the PDS DID (fails fast when that fails),
then one getServiceAuth request; HTTP 200 yields the token. -/
def get_service_auth (env : Env) : Option String × List NetCall :=
  let pds := get_user_pds_did env.directory
  match pds.1 with
  | none => (none, pds.2)
  | some _ =>
    if env.serviceAuth.httpStatus = 200 then
      (some env.serviceAuth.token, pds.2 ++ [NetCall.getServiceAuth])
    else
      (none, pds.2 ++ [NetCall.getServiceAuth])

/-- Outcome of the polling phase.  gotBlob is the successful `return
blob_ref`; every other variant is a distinct `return None` branch of the
source, identified by the diagnostic it prints there. -/
inductive PollOutcome where
  | gotBlob (b : Blob)
  | completedNoBlob
  | processingFailed (msg : String)
  | timedOut
  | authFailed
deriving DecidableEq

/-- What one iteration of the polling loop does with its response. -/
inductive StepClass where
  | terminal (o : PollOutcome)
  | retry
deriving DecidableEq

/-- Classification of a single getJobStatus response by the loop body of
wait_for_video_processing, branch for branch: non-200 responses retry;
JOB_STATE_COMPLETED returns the blob (or a distinct failure when the blob
is missing); JOB_STATE_FAILED returns the server error message with the
Python default "Unknown error"; the three known intermediate states retry;
any other state string also retries. -/
def classify (r : JobStatusResponse) : StepClass :=
  if r.httpStatus = 200 then
    if r.state = some "JOB_STATE_COMPLETED" then
      match r.blob with
      | some b => StepClass.terminal (PollOutcome.gotBlob b)
      | none => StepClass.terminal PollOutcome.completedNoBlob
    else if r.state = some "JOB_STATE_FAILED" then
      StepClass.terminal (PollOutcome.processingFailed (r.error.getD "Unknown error"))
    else if r.state = some "JOB_STATE_CREATED" ∨ r.state = some "JOB_STATE_RUNNING" ∨
            r.state = some "JOB_STATE_ENCODING" then
      StepClass.retry
    else
      StepClass.retry
  else
    StepClass.retry

/-- `max_attempts = 30` of wait_for_video_processing. -/
def max_attempts : Nat := 30

/-- The bounded polling loop: at each attempt issue one status query; a
terminal classification returns at once, a retry sleeps 10 seconds and
continues with one unit of fuel less.  Returns the outcome, the number of
status queries issued, and the total seconds slept. -/
def pollFrom (resps : Nat → JobStatusResponse) : Nat → Nat → PollOutcome × Nat × Nat
  | _, 0 => (PollOutcome.timedOut, 0, 0)
  | attempt, n + 1 =>
    match classify (resps attempt) with
    | StepClass.terminal o => (o, 1, 0)
    | StepClass.retry =>
      let rest := pollFrom resps (attempt + 1) n
      (rest.1, rest.2.1 + 1, rest.2.2 + 10)

/-- wait_for_video_processing: fetch a fresh service-auth token (failing
fast when that fails), then run the bounded polling loop. -/
def wait_for_video_processing (env : Env) : PollOutcome × List NetCall :=
  match get_service_auth env with
  | (none, t) => (PollOutcome.authFailed, t)
  | (some _, t) =>
    let r := pollFrom env.jobResps 0 max_attempts
    (r.1, t ++ List.replicate r.2.1 NetCall.getJobStatus)

/-- get_completed_job_blob: fresh service-auth token, then exactly one
getJobStatus request; on HTTP 200 return its blob field (None when the blob
is absent), otherwise None. -/
def get_completed_job_blob (env : Env) : Option Blob × List NetCall :=
  match get_service_auth env with
  | (none, t) => (none, t)
  | (some _, t) =>
    let t1 := t ++ [NetCall.getJobStatus]
    if env.completedJob.httpStatus = 200 then (env.completedJob.blob, t1)
    else (none, t1)

/-- The video_result dict built by upload_video and consumed by
create_post_with_video: blob is read with .get (so optional), aspect is
present only when the dict carries an aspectRatio key. -/
structure VideoResult where
  blob : Option Blob
  jobId : String
  state : String
  aspect : Option AspectDims
deriving DecidableEq

/-- upload_video: fresh service-auth token, then the uploadVideo request.
On 200 with a truthy jobId, poll to completion and wrap the blob; on 409
with a terminal-success state and truthy jobId, fetch the blob of the
completed job with one status query; every other case returns None.
Note the source never checks the file size here (it only prints it). -/
def upload_video (env : Env) : Option VideoResult × List NetCall :=
  match get_service_auth env with
  | (none, t0) => (none, t0)
  | (some _, t0) =>
    let t1 := t0 ++ [NetCall.uploadVideo]
    if env.upload.httpStatus = 200 then
      if truthy env.upload.jobId = true then
        let w := wait_for_video_processing env
        match w.1 with
        | PollOutcome.gotBlob b =>
          (some { blob := some b, jobId := env.upload.jobId.getD "",
                  state := "completed", aspect := none }, t1 ++ w.2)
        | _ => (none, t1 ++ w.2)
      else (none, t1)
    else if env.upload.httpStatus = 409 then
      if env.upload.state = some "JOB_STATE_COMPLETED" ∧ truthy env.upload.jobId = true then
        let r := get_completed_job_blob env
        match r.1 with
        | some b =>
          (some { blob := some b, jobId := env.upload.jobId.getD "",
                  state := "completed", aspect := none }, t1 ++ r.2)
        | none => (none, t1 ++ r.2)
      else (none, t1)
    else (none, t1)

/-- The embed object of the post record: the video field always holds the
blob read from the video_result, alt is present only when the alt text is
non-empty, aspect only when the video_result supplied one. -/
structure VideoEmbed where
  video : Option Blob
  alt : Option String
  aspect : Option AspectDims
deriving DecidableEq

/-- The post record built by create_post_with_video. -/
structure PostRecord where
  text : String
  createdAt : String
  embed : VideoEmbed
deriving DecidableEq

/-- The pure record construction at the top of create_post_with_video,
before any network request: the wall-clock read for createdAt is passed in
as a parameter. -/
def composeRecord (text : String) (video_result : VideoResult)
    (alt_text : String) (createdAt : String) : PostRecord :=
  { text := text
    createdAt := createdAt
    embed :=
      { video := video_result.blob
        alt := if alt_text ≠ "" then some alt_text else none
        aspect := video_result.aspect } }

/-- create_post_with_video: build the record, then one createRecord
request; HTTP 200 yields the response.  The built record is returned as
well so that theorems can speak about what was submitted. -/
def create_post_with_video (env : Env) (text : String) (video_result : VideoResult)
    (alt_text : String) (createdAt : String) :
    Option CreateRecordResponse × PostRecord × List NetCall :=
  let record := composeRecord text video_result alt_text createdAt
  if env.createRecord.httpStatus = 200 then
    (some env.createRecord, record, [NetCall.createRecord])
  else
    (none, record, [NetCall.createRecord])

/-- Bluesky credential configuration as read from CONFIG. -/
structure BlueskyConfig where
  handle : String
  password : String
deriving DecidableEq

/-- The size ceiling of post_to_bluesky: `size_mb > 50` with
`size_mb = bytes / (1024*1024)` in exact binary floating point is the same
predicate as `bytes > 50 * 1024 * 1024`. -/
def size_ceiling_bytes : Nat := 50 * 1024 * 1024

/-- SunriseTimelapse.post_to_bluesky: skip (returning False, no requests)
when the handle is still the placeholder or the password is empty;
otherwise create a session (one request), then check the file size, then
upload and finally create the post.  Both the session-failure and the
oversized-file branch return False right after the createSession request. -/
def post_to_bluesky (cfg : BlueskyConfig) (env : Env) (videoSizeBytes : Nat)
    (description sunriseStamp now : String) : Bool × List NetCall :=
  if cfg.handle = "handle.bsky.social" ∨ cfg.password = "" then
    (false, [])
  else if env.session.httpStatus ≠ 200 then
    (false, [NetCall.createSession])
  else if videoSizeBytes > size_ceiling_bytes then
    (false, [NetCall.createSession])
  else
    match upload_video env with
    | (none, t) => (false, NetCall.createSession :: t)
    | (some vr, t) =>
      let text := description ++ "\n\nSunrise: " ++ sunriseStamp
      let res := create_post_with_video env text vr "Southampton sunrise timelapse" now
      match res.1 with
      | some _ => (true, NetCall.createSession :: (t ++ res.2.2))
      | none => (false, NetCall.createSession :: (t ++ res.2.2))

/-! ### Concrete fixtures used by witnesses and counterexamples -/

/-- Blob fixture, matching the blob of the end-to-end scenario. -/
def okBlob : Blob := { raw := "bafy123" }

/-- Status response: job completed, blob present. -/
def completedResponse : JobStatusResponse :=
  { httpStatus := 200, state := some "JOB_STATE_COMPLETED", blob := some okBlob, error := none }

/-- Status response: job still running. -/
def runningResponse : JobStatusResponse :=
  { httpStatus := 200, state := some "JOB_STATE_RUNNING", blob := none, error := none }

/-- Status response: job failed with a server-supplied message. -/
def failedResponse : JobStatusResponse :=
  { httpStatus := 200, state := some "JOB_STATE_FAILED", blob := none, error := some "transcode error" }

/-- Status response whose state string is not one of the five enumerated
states. -/
def unknownStateResponse : JobStatusResponse :=
  { httpStatus := 200, state := some "JOB_STATE_BRAND_NEW", blob := none, error := none }

/-- Status request answered with an HTTP error. -/
def httpErrorResponse : JobStatusResponse :=
  { httpStatus := 500, state := none, blob := none, error := none }

/-- Properly configured credentials. -/
def cfgOk : BlueskyConfig := { handle := "user.bsky.social", password := "pw" }

/-- DID-document service entry carrying the PDS endpoint. -/
def pdsService : DirService :=
  { id := some "#atproto_pds", serviceEndpoint := "https://pds.example.com" }

/-- Environment in which every request succeeds and the first status query
already reports completion. -/
def baseEnv : Env :=
  { session := { httpStatus := 200, did := "did:plc:abc123", handle := "user.bsky.social", accessJwt := "jwt" }
    directory := { httpStatus := 200, services := [pdsService] }
    serviceAuth := { httpStatus := 200, token := "svc-token" }
    upload := { httpStatus := 200, jobId := some "job-1", state := none }
    jobResps := fun _ => completedResponse
    completedJob := completedResponse
    createRecord := { httpStatus := 200, uri := "at://did:plc:abc123/app.bsky.feed.post/xyz789" } }

/-! ### Helper lemmas -/

/-- The polling loop never issues more status queries than it has fuel. -/
lemma pollFrom_queries_le (resps : Nat → JobStatusResponse) :
    ∀ n a, (pollFrom resps a n).2.1 ≤ n := by
  intro n
  induction n with
  | zero => intro a; simp [pollFrom]
  | succ m ih =>
    intro a
    cases h : classify (resps a) with
    | terminal o => simp [pollFrom, h]
    | retry =>
      simp only [pollFrom, h]
      exact Nat.succ_le_succ (ih (a + 1))

/-- When every response within the fuel bound is classified as a retry, the
loop uses all its fuel, times out, and sleeps ten seconds per attempt. -/
lemma pollFrom_all_retry (resps : Nat → JobStatusResponse) :
    ∀ n a, (∀ i, i < n → classify (resps (a + i)) = StepClass.retry) →
      pollFrom resps a n = (PollOutcome.timedOut, n, 10 * n) := by
  intro n
  induction n with
  | zero => intro a _; simp [pollFrom]
  | succ m ih =>
    intro a h
    have h0 : classify (resps a) = StepClass.retry := by
      have := h 0 (Nat.succ_pos m)
      simpa using this
    have hrest : pollFrom resps (a + 1) m = (PollOutcome.timedOut, m, 10 * m) := by
      refine ih (a + 1) (fun i hi => ?_)
      have := h (i + 1) (Nat.succ_lt_succ hi)
      have e : a + (i + 1) = (a + 1) + i := by omega
      rwa [e] at this
    simp [pollFrom, h0, hrest, Nat.mul_succ]

/-- When the first k responses retry and the response at index k is
terminal with outcome o (within the fuel bound), the loop returns o after
exactly k + 1 status queries and 10 k seconds of sleep. -/
lemma pollFrom_terminal_at (resps : Nat → JobStatusResponse) (o : PollOutcome) :
    ∀ k a n, k < n → (∀ i, i < k → classify (resps (a + i)) = StepClass.retry) →
      classify (resps (a + k)) = StepClass.terminal o →
      pollFrom resps a n = (o, k + 1, 10 * k) := by
  intro k
  induction k with
  | zero =>
    intro a n hn _ ht
    cases n with
    | zero => omega
    | succ m =>
      have h0 : classify (resps a) = StepClass.terminal o := by simpa using ht
      simp [pollFrom, h0]
  | succ j ih =>
    intro a n hn hr ht
    cases n with
    | zero => omega
    | succ m =>
      have h0 : classify (resps a) = StepClass.retry := by
        have := hr 0 (Nat.succ_pos j)
        simpa using this
      have hrest : pollFrom resps (a + 1) m = (o, j + 1, 10 * j) := by
        refine ih (a + 1) m (by omega) (fun i hi => ?_) ?_
        · have := hr (i + 1) (by omega)
          have e : a + (i + 1) = (a + 1) + i := by omega
          rwa [e] at this
        · have e : a + (j + 1) = (a + 1) + j := by omega
          rwa [e] at ht
      simp [pollFrom, h0, hrest, Nat.mul_succ]

/-- The directory lookup of get_user_pds_did is always exactly one request. -/
lemma get_user_pds_did_trace (dir : DirectoryResponse) :
    (get_user_pds_did dir).2 = [NetCall.directoryLookup] := rfl

/-- Characterization of a successful get_service_auth: when the directory
answers 200 with a usable PDS entry and the token endpoint answers 200, the
result is the token and the trace is one lookup followed by one token
request. -/
lemma get_service_auth_ok (env : Env) (pds : String)
    (h1 : env.directory.httpStatus = 200)
    (h2 : findPds env.directory.services = some pds)
    (h3 : env.serviceAuth.httpStatus = 200) :
    get_service_auth env =
      (some env.serviceAuth.token, [NetCall.directoryLookup, NetCall.getServiceAuth]) := by
  simp [get_service_auth, get_user_pds_did, h1, h2, h3]

/-- The trace of get_service_auth never contains a status query. -/
lemma get_service_auth_no_status (env : Env) :
    ((get_service_auth env).2).count NetCall.getJobStatus = 0 := by
  unfold get_service_auth
  cases hf : (get_user_pds_did env.directory).1 with
  | none => simp [hf, get_user_pds_did_trace]
  | some p =>
    by_cases h : env.serviceAuth.httpStatus = 200 <;>
      simp [hf, h, get_user_pds_did_trace, List.count_cons]

/-- Characterization of wait_for_video_processing when token issuance
succeeds: the outcome of the bounded loop, preceded by the lookup and token
requests and followed by one status request per query. -/
lemma wait_ok (env : Env) (pds : String) (o : PollOutcome) (q s : Nat)
    (h1 : env.directory.httpStatus = 200)
    (h2 : findPds env.directory.services = some pds)
    (h3 : env.serviceAuth.httpStatus = 200)
    (hp : pollFrom env.jobResps 0 max_attempts = (o, q, s)) :
    wait_for_video_processing env =
      (o, [NetCall.directoryLookup, NetCall.getServiceAuth] ++
          List.replicate q NetCall.getJobStatus) := by
  unfold wait_for_video_processing
  rw [get_service_auth_ok env pds h1 h2 h3]
  simp [hp]

/-- Characterization of upload_video on the 200 path with a truthy jobId:
the result is determined by the poll outcome, and the trace is the two auth
requests, the upload, the two auth requests of the polling phase and one
status request per query. -/
lemma upload_video_200 (env : Env) (pds : String) (o : PollOutcome) (q s : Nat)
    (h1 : env.directory.httpStatus = 200)
    (h2 : findPds env.directory.services = some pds)
    (h3 : env.serviceAuth.httpStatus = 200)
    (h8 : env.upload.httpStatus = 200)
    (h9 : truthy env.upload.jobId = true)
    (hp : pollFrom env.jobResps 0 max_attempts = (o, q, s)) :
    upload_video env =
      ((match o with
        | PollOutcome.gotBlob b =>
          some { blob := some b, jobId := env.upload.jobId.getD "",
                 state := "completed", aspect := none }
        | _ => none),
       [NetCall.directoryLookup, NetCall.getServiceAuth, NetCall.uploadVideo,
        NetCall.directoryLookup, NetCall.getServiceAuth] ++
         List.replicate q NetCall.getJobStatus) := by
  unfold upload_video
  rw [get_service_auth_ok env pds h1 h2 h3]
  rw [wait_ok env pds o q s h1 h2 h3 hp]
  cases o <;> simp [h8, h9]

/-! ### Claim theorems -/

/-- Claim C10: when the configured handle still equals the placeholder
value or the configured password is empty, post_to_bluesky returns failure
immediately and issues zero network requests. -/
theorem C10_unconfigured_credentials_skip (cfg : BlueskyConfig) (env : Env)
    (sz : Nat) (d ss now : String)
    (h : cfg.handle = "handle.bsky.social" ∨ cfg.password = "") :
    post_to_bluesky cfg env sz d ss now = (false, []) := by
  unfold post_to_bluesky
  rw [if_pos h]

/-- Witness for C10 at the placeholder handle. -/
theorem C10_witness :
    post_to_bluesky { handle := "handle.bsky.social", password := "pw" } baseEnv
      1048576 "d" "s" "now" = (false, []) :=
  C10_unconfigured_credentials_skip _ baseEnv 1048576 "d" "s" "now" (Or.inl rfl)

/-- Counterexample to claim C1 as stated: with configured credentials and a
51 MiB video, the attempt does fail, but the network trace is not empty —
the createSession request is issued before the size check. -/
theorem C1_counterexample :
    (post_to_bluesky cfgOk baseEnv (51 * 1024 * 1024) "d" "s" "now").1 = false ∧
    (post_to_bluesky cfgOk baseEnv (51 * 1024 * 1024) "d" "s" "now").2 ≠ [] := by
  decide

/-- Claim C1 (amended): with configured credentials, an oversized video
makes the publish attempt return failure before any video-service request:
the complete network trace is the single createSession request. -/
theorem C1_size_checked_after_session (cfg : BlueskyConfig) (env : Env)
    (sz : Nat) (d ss now : String)
    (hc1 : cfg.handle ≠ "handle.bsky.social") (hc2 : cfg.password ≠ "")
    (hsz : sz > size_ceiling_bytes) :
    (post_to_bluesky cfg env sz d ss now).1 = false ∧
    (post_to_bluesky cfg env sz d ss now).2 = [NetCall.createSession] := by
  unfold post_to_bluesky
  rw [if_neg (by push_neg; exact ⟨hc1, hc2⟩)]
  by_cases hs : env.session.httpStatus = 200 <;> simp [hs, hsz]

/-- Witness for the amended C1 at a 50 MiB + 1 byte video. -/
theorem C1_witness :
    (post_to_bluesky cfgOk baseEnv 52428801 "d" "s" "now").1 = false ∧
    (post_to_bluesky cfgOk baseEnv 52428801 "d" "s" "now").2 = [NetCall.createSession] :=
  C1_size_checked_after_session cfgOk baseEnv 52428801 "d" "s" "now"
    (by decide) (by decide) (by decide)

/-- Every service entry whose id matches the PDS marker having an empty
endpoint makes the scan fail. -/
lemma findPds_none (l : List DirService)
    (h : ∀ s ∈ l, s.id = some "#atproto_pds" → s.serviceEndpoint = "") :
    findPds l = none := by
  induction l with
  | nil => rfl
  | cons s rest ih =>
    unfold findPds
    by_cases hid : s.id = some "#atproto_pds"
    · rw [if_pos hid]
      have he : s.serviceEndpoint = "" := h s (List.mem_cons_self s rest) hid
      rw [if_neg (by simp [he])]
      exact ih (fun x hx hxid => h x (List.mem_cons_of_mem s hx) hxid)
    · rw [if_neg hid]
      exact ih (fun x hx hxid => h x (List.mem_cons_of_mem s hx) hxid)

/-- Claim C8: resolution is deterministic over a fixed identity document,
and a document whose service list lacks a usable PDS entry (no entry with
the PDS id, or only such entries with empty endpoints) resolves to the
failure value. -/
theorem C8_resolver_deterministic_and_fails (dir : DirectoryResponse) :
    get_user_pds_did dir = get_user_pds_did dir ∧
    ((∀ s ∈ dir.services, s.id = some "#atproto_pds" → s.serviceEndpoint = "") →
      (get_user_pds_did dir).1 = none) := by
  refine ⟨rfl, fun h => ?_⟩
  unfold get_user_pds_did
  by_cases hs : dir.httpStatus = 200 <;> simp [hs, findPds_none dir.services h]

/-- Identity document whose only PDS entry has an empty endpoint. -/
def emptyPdsDoc : DirectoryResponse :=
  { httpStatus := 200
    services := [{ id := some "#atproto_pds", serviceEndpoint := "" },
                 { id := some "#other", serviceEndpoint := "https://x.example" }] }

/-- Witness for C8 on a document with an empty PDS endpoint. -/
theorem C8_witness : (get_user_pds_did emptyPdsDoc).1 = none :=
  (C8_resolver_deterministic_and_fails emptyPdsDoc).2 (by decide)

/-- Upload result fixture for the compose witness. -/
def sampleVR : VideoResult :=
  { blob := some okBlob, jobId := "job-1", state := "completed", aspect := none }

/-- Claim C6: the composed record always embeds the blob of its input, has
the alt field exactly when the alt text is non-empty (and then with that
text), has the aspect field exactly when one was supplied, and is a pure
function of its inputs — the record submitted by create_post_with_video is
composeRecord of the inputs, independent of the network environment. -/
theorem C6_compose_record (env : Env) (text alt createdAt : String) (vr : VideoResult) :
    (composeRecord text vr alt createdAt).embed.video = vr.blob ∧
    ((composeRecord text vr alt createdAt).embed.alt.isSome ↔ alt ≠ "") ∧
    (alt ≠ "" → (composeRecord text vr alt createdAt).embed.alt = some alt) ∧
    (composeRecord text vr alt createdAt).embed.aspect = vr.aspect ∧
    ((composeRecord text vr alt createdAt).embed.aspect.isSome ↔ vr.aspect.isSome) ∧
    (create_post_with_video env text vr alt createdAt).2.1 = composeRecord text vr alt createdAt := by
  refine ⟨rfl, ?_, ?_, rfl, Iff.rfl, ?_⟩
  · by_cases h : alt = "" <;> simp [composeRecord, h]
  · intro h; simp [composeRecord, h]
  · unfold create_post_with_video
    by_cases h : env.createRecord.httpStatus = 200 <;> simp [h]

/-- Witness for C6 with the alt text of the end-to-end scenario. -/
theorem C6_witness :
    (composeRecord "Dawn over the harbor" sampleVR "Sunrise timelapse" "t").embed.alt =
      some "Sunrise timelapse" :=
  (C6_compose_record baseEnv "Dawn over the harbor" "Sunrise timelapse" "t" sampleVR).2.2.1
    (by decide)

/-- Claim C3: the polling loop is bounded — it issues at most 30 status
queries for any response sequence (and wait_for_video_processing never
issues more than 30 status requests overall), and when every response
within the bound is non-terminal it exhausts the bound, reports the timeout
outcome, and has slept the fixed 10 seconds after each of its 30 attempts. -/
theorem C3_poller_bounded_timeout (resps : Nat → JobStatusResponse) (env : Env) :
    (pollFrom resps 0 max_attempts).2.1 ≤ max_attempts ∧
    ((wait_for_video_processing env).2).count NetCall.getJobStatus ≤ max_attempts ∧
    ((∀ i, i < max_attempts → classify (resps i) = StepClass.retry) →
      pollFrom resps 0 max_attempts =
        (PollOutcome.timedOut, max_attempts, 10 * max_attempts)) := by
  refine ⟨pollFrom_queries_le resps max_attempts 0, ?_, ?_⟩
  · have hcount := get_service_auth_no_status env
    have hq := pollFrom_queries_le env.jobResps max_attempts 0
    unfold wait_for_video_processing
    rcases hga : get_service_auth env with ⟨tok, t⟩
    rw [hga] at hcount
    simp only at hcount
    cases tok
    · simp [hcount]
    · simpa [List.count_append, hcount, List.count_replicate_self] using hq
  · intro h
    have := pollFrom_all_retry resps max_attempts 0 (fun i hi => by simpa using h i hi)
    simpa using this

/-- Witness for C3: a server that forever reports RUNNING produces the
timeout after exactly 30 queries and 300 seconds of sleeping. -/
theorem C3_witness :
    pollFrom (fun _ => runningResponse) 0 max_attempts =
      (PollOutcome.timedOut, max_attempts, 10 * max_attempts) :=
  (C3_poller_bounded_timeout (fun _ => runningResponse) baseEnv).2.2 (fun _ _ => rfl)

/-- Claim C9: a status query answered with a non-success HTTP status is
classified as a retry (consuming one bounded attempt, with the fixed sleep,
exactly like a non-terminal state), and a server that persistently returns
HTTP errors drives the otherwise-healthy pipeline into the timeout outcome
rather than a distinct immediate error. -/
theorem C9_http_error_consumes_attempt (r : JobStatusResponse)
    (resps : Nat → JobStatusResponse) (n : Nat) (env : Env) (pds : String) :
    (r.httpStatus ≠ 200 → classify r = StepClass.retry) ∧
    (classify (resps 0) = StepClass.retry →
      pollFrom resps 0 (n + 1) =
        ((pollFrom resps 1 n).1, (pollFrom resps 1 n).2.1 + 1,
         (pollFrom resps 1 n).2.2 + 10)) ∧
    ((∀ i, i < max_attempts → (env.jobResps i).httpStatus ≠ 200) →
      env.directory.httpStatus = 200 → findPds env.directory.services = some pds →
      env.serviceAuth.httpStatus = 200 →
      wait_for_video_processing env =
        (PollOutcome.timedOut,
         [NetCall.directoryLookup, NetCall.getServiceAuth] ++
           List.replicate max_attempts NetCall.getJobStatus)) := by
  refine ⟨fun h => by simp [classify, h], fun h => by simp [pollFrom, h], ?_⟩
  intro hall h1 h2 h3
  have hret : ∀ i, i < max_attempts → classify (env.jobResps i) = StepClass.retry :=
    fun i hi => by simp [classify, hall i hi]
  have hp := pollFrom_all_retry env.jobResps max_attempts 0
    (fun i hi => by simpa using hret i hi)
  exact wait_ok env pds PollOutcome.timedOut max_attempts (10 * max_attempts) h1 h2 h3 hp

/-- Environment whose status endpoint persistently returns HTTP 500. -/
def envC9 : Env := { baseEnv with jobResps := fun _ => httpErrorResponse }

/-- Witness for C9: one HTTP 500 response retries, and thirty of them in a
healthy environment produce the timeout outcome. -/
theorem C9_witness :
    classify httpErrorResponse = StepClass.retry ∧
    wait_for_video_processing envC9 =
      (PollOutcome.timedOut,
       [NetCall.directoryLookup, NetCall.getServiceAuth] ++
         List.replicate max_attempts NetCall.getJobStatus) :=
  ⟨(C9_http_error_consumes_attempt httpErrorResponse (fun _ => httpErrorResponse) 0 envC9
      "did:web:pds.example.com").1 (by decide),
   (C9_http_error_consumes_attempt httpErrorResponse (fun _ => httpErrorResponse) 0 envC9
      "did:web:pds.example.com").2.2
     (fun i _ => (by decide : httpErrorResponse.httpStatus ≠ 200))
     (by decide) (by decide) (by decide)⟩

/-- Claim C4: the loop body classifies every response exhaustively —
COMPLETED with a blob returns that blob, FAILED returns the server message,
each of the three known intermediate states retries, an unrecognized state
string retries exactly the same way, and a terminal classification at the
head of the sequence means exactly one status query is issued (COMPLETED
and FAILED are absorbing), while a retry consumes one attempt and one fixed
sleep. -/
theorem C4_exhaustive_classification (r : JobStatusResponse)
    (resps : Nat → JobStatusResponse) (n : Nat) (b : Blob) (m : String) :
    (r.httpStatus = 200 → r.state = some "JOB_STATE_COMPLETED" → r.blob = some b →
      classify r = StepClass.terminal (PollOutcome.gotBlob b)) ∧
    (r.httpStatus = 200 → r.state = some "JOB_STATE_FAILED" → r.error = some m →
      classify r = StepClass.terminal (PollOutcome.processingFailed m)) ∧
    (r.httpStatus = 200 →
      (r.state = some "JOB_STATE_CREATED" ∨ r.state = some "JOB_STATE_RUNNING" ∨
       r.state = some "JOB_STATE_ENCODING") →
      classify r = StepClass.retry) ∧
    (r.httpStatus = 200 →
      r.state ≠ some "JOB_STATE_COMPLETED" → r.state ≠ some "JOB_STATE_FAILED" →
      r.state ≠ some "JOB_STATE_CREATED" → r.state ≠ some "JOB_STATE_RUNNING" →
      r.state ≠ some "JOB_STATE_ENCODING" →
      classify r = StepClass.retry) ∧
    (∀ o, classify (resps 0) = StepClass.terminal o → pollFrom resps 0 (n + 1) = (o, 1, 0)) ∧
    (classify (resps 0) = StepClass.retry →
      pollFrom resps 0 (n + 1) =
        ((pollFrom resps 1 n).1, (pollFrom resps 1 n).2.1 + 1,
         (pollFrom resps 1 n).2.2 + 10)) := by
  refine ⟨?_, ?_, ?_, ?_, ?_, ?_⟩
  · intro h1 h2 h3; simp [classify, h1, h2, h3]
  · intro h1 h2 h3; simp [classify, h1, h2, h3]
  · intro h1 h2
    rcases h2 with h | h | h <;> simp [classify, h1, h]
  · intro h1 h2 h3 h4 h5 h6; simp [classify, h1, h2, h3, h4, h5, h6]
  · intro o h; simp [pollFrom, h]
  · intro h; simp [pollFrom, h]

/-- Witness for C4 on one response of each kind. -/
theorem C4_witness :
    classify completedResponse = StepClass.terminal (PollOutcome.gotBlob okBlob) ∧
    classify failedResponse = StepClass.terminal (PollOutcome.processingFailed "transcode error") ∧
    classify runningResponse = StepClass.retry ∧
    classify unknownStateResponse = StepClass.retry ∧
    pollFrom (fun _ => completedResponse) 0 max_attempts = (PollOutcome.gotBlob okBlob, 1, 0) :=
  ⟨(C4_exhaustive_classification completedResponse (fun _ => completedResponse) 29 okBlob
      "m").1 rfl rfl rfl,
   (C4_exhaustive_classification failedResponse (fun _ => failedResponse) 29 okBlob
      "transcode error").2.1 rfl rfl rfl,
   (C4_exhaustive_classification runningResponse (fun _ => runningResponse) 29 okBlob
      "m").2.2.1 rfl (Or.inr (Or.inl rfl)),
   (C4_exhaustive_classification unknownStateResponse (fun _ => unknownStateResponse) 29 okBlob
      "m").2.2.2.1 rfl (by decide) (by decide) (by decide) (by decide) (by decide),
   (C4_exhaustive_classification completedResponse (fun _ => completedResponse) 29 okBlob
      "m").2.2.2.2.1 (PollOutcome.gotBlob okBlob) (by decide)⟩

/-- Environment with a healthy pipeline whose upload request is answered
with 409 and a non-terminal reported state. -/
def envC2bad : Env :=
  { baseEnv with upload := { httpStatus := 409, jobId := some "job-1", state := some "JOB_STATE_RUNNING" } }

/-- Environment with a healthy pipeline whose upload request is answered
with 409 and the terminal-success state. -/
def envC2ok : Env :=
  { baseEnv with upload := { httpStatus := 409, jobId := some "job-1", state := some "JOB_STATE_COMPLETED" } }

/-- Counterexample to claim C2 as stated: a 409 response reporting the
non-terminal state JOB_STATE_RUNNING (with everything else healthy) makes
upload_video return None — a failure, not a success handed to the poller. -/
theorem C2_counterexample :
    envC2bad.upload.httpStatus = 409 ∧
    envC2bad.upload.state = some "JOB_STATE_RUNNING" ∧
    (upload_video envC2bad).1 = none := by
  decide

/-- Claim C2 (amended): on a 409 conflict reporting the terminal-success
state with a truthy jobId, upload_video fetches the blob via exactly one
status query and returns a completed result; on a 409 reporting any other
state, upload_video fails (returns None) instead of handing the job to the
poller. -/
theorem C2_conflict_completed_or_fail (env env2 : Env) (pds st : String) (b : Blob)
    (h1 : env.directory.httpStatus = 200)
    (h2 : findPds env.directory.services = some pds)
    (h3 : env.serviceAuth.httpStatus = 200)
    (h4 : env.upload.httpStatus = 409)
    (h5 : env.upload.state = some "JOB_STATE_COMPLETED")
    (h6 : truthy env.upload.jobId = true)
    (h7 : env.completedJob.httpStatus = 200)
    (h8 : env.completedJob.blob = some b)
    (g4 : env2.upload.httpStatus = 409)
    (g5 : env2.upload.state = some st)
    (g6 : st ≠ "JOB_STATE_COMPLETED") :
    (upload_video env).1 =
      some { blob := some b, jobId := env.upload.jobId.getD "",
             state := "completed", aspect := none } ∧
    ((upload_video env).2).count NetCall.getJobStatus = 1 ∧
    (upload_video env2).1 = none := by
  have hcjb : get_completed_job_blob env =
      (some b, [NetCall.directoryLookup, NetCall.getServiceAuth, NetCall.getJobStatus]) := by
    unfold get_completed_job_blob
    rw [get_service_auth_ok env pds h1 h2 h3]
    simp [h7, h8]
  refine ⟨?_, ?_, ?_⟩
  · unfold upload_video
    rw [get_service_auth_ok env pds h1 h2 h3]
    simp [h4, h5, h6, hcjb]
  · unfold upload_video
    rw [get_service_auth_ok env pds h1 h2 h3]
    simp [h4, h5, h6, hcjb, List.count_cons]
  · unfold upload_video
    rcases hga : get_service_auth env2 with ⟨tok, t⟩
    cases tok
    · simp
    · simp [g4, g5, g6]

/-- Witness for the amended C2: the conflict-completed path succeeds with
one status query, the conflict-running path fails. -/
theorem C2_witness :
    (upload_video envC2ok).1 =
      some { blob := some okBlob, jobId := "job-1", state := "completed", aspect := none } ∧
    ((upload_video envC2ok).2).count NetCall.getJobStatus = 1 ∧
    (upload_video envC2bad).1 = none :=
  C2_conflict_completed_or_fail envC2ok envC2bad "did:web:pds.example.com" "JOB_STATE_RUNNING"
    okBlob (by decide) (by decide) rfl rfl rfl rfl rfl rfl rfl rfl (by decide)

/-- Claim C5: a poll response reporting the FAILED terminal state (after
any number of non-terminal responses within the bound) makes the polling
phase end with the processing-failure outcome carrying the server-supplied
message, and the publish attempt returns failure without ever issuing the
createRecord request — the post is neither built nor submitted. -/
theorem C5_failed_state_aborts (cfg : BlueskyConfig) (env : Env) (sz k : Nat)
    (d ss now msg pds : String)
    (hc1 : cfg.handle ≠ "handle.bsky.social") (hc2 : cfg.password ≠ "")
    (hs : env.session.httpStatus = 200) (hsz : ¬ sz > size_ceiling_bytes)
    (h1 : env.directory.httpStatus = 200)
    (h2 : findPds env.directory.services = some pds)
    (h3 : env.serviceAuth.httpStatus = 200)
    (h8 : env.upload.httpStatus = 200) (h9 : truthy env.upload.jobId = true)
    (hk : k < max_attempts)
    (hret : ∀ i, i < k → classify (env.jobResps i) = StepClass.retry)
    (hfk : (env.jobResps k).httpStatus = 200)
    (hst : (env.jobResps k).state = some "JOB_STATE_FAILED")
    (herr : (env.jobResps k).error = some msg) :
    (wait_for_video_processing env).1 = PollOutcome.processingFailed msg ∧
    post_to_bluesky cfg env sz d ss now =
      (false, [NetCall.createSession, NetCall.directoryLookup, NetCall.getServiceAuth,
               NetCall.uploadVideo, NetCall.directoryLookup, NetCall.getServiceAuth] ++
              List.replicate (k + 1) NetCall.getJobStatus) ∧
    NetCall.createRecord ∉ (post_to_bluesky cfg env sz d ss now).2 := by
  have hterm : classify (env.jobResps k) = StepClass.terminal (PollOutcome.processingFailed msg) := by
    simp [classify, hfk, hst, herr]
  have hp : pollFrom env.jobResps 0 max_attempts = (PollOutcome.processingFailed msg, k + 1, 10 * k) :=
    pollFrom_terminal_at env.jobResps (PollOutcome.processingFailed msg) k 0 max_attempts hk
      (fun i hi => by simpa using hret i hi) (by simpa using hterm)
  have hwait := wait_ok env pds (PollOutcome.processingFailed msg) (k + 1) (10 * k) h1 h2 h3 hp
  have hup := upload_video_200 env pds (PollOutcome.processingFailed msg) (k + 1) (10 * k)
    h1 h2 h3 h8 h9 hp
  have hpost : post_to_bluesky cfg env sz d ss now =
      (false, [NetCall.createSession, NetCall.directoryLookup, NetCall.getServiceAuth,
               NetCall.uploadVideo, NetCall.directoryLookup, NetCall.getServiceAuth] ++
              List.replicate (k + 1) NetCall.getJobStatus) := by
    unfold post_to_bluesky
    rw [if_neg (by push_neg; exact ⟨hc1, hc2⟩)]
    rw [if_neg (not_not_intro hs)]
    rw [if_neg hsz]
    rw [hup]
    rfl
  refine ⟨by rw [hwait], hpost, ?_⟩
  rw [hpost]
  simp [List.mem_append, List.mem_replicate]

/-- Environment replaying the failure scenario: RUNNING, then FAILED with
the message of the scenario. -/
def envC5 : Env :=
  { baseEnv with jobResps := fun i => if i = 0 then runningResponse else failedResponse }

/-- Witness for C5 on the RUNNING-then-FAILED scenario. -/
theorem C5_witness :
    (wait_for_video_processing envC5).1 = PollOutcome.processingFailed "transcode error" ∧
    post_to_bluesky cfgOk envC5 1048576 "d" "s" "now" =
      (false, [NetCall.createSession, NetCall.directoryLookup, NetCall.getServiceAuth,
               NetCall.uploadVideo, NetCall.directoryLookup, NetCall.getServiceAuth] ++
              List.replicate 2 NetCall.getJobStatus) ∧
    NetCall.createRecord ∉ (post_to_bluesky cfgOk envC5 1048576 "d" "s" "now").2 :=
  C5_failed_state_aborts cfgOk envC5 1048576 1 "d" "s" "now" "transcode error"
    "did:web:pds.example.com" (by decide) (by decide) rfl (by decide) rfl (by decide) rfl rfl
    (by decide) (by decide)
    (fun i hi => by
      have h0 : i = 0 := by omega
      subst h0
      decide)
    (by decide) (by decide) (by decide)

/-- Counterexample to claim C7 as stated: in the all-healthy environment
(upload accepted, first poll already completed) one publish attempt
performs the directory lookup twice, not at most once. -/
theorem C7_counterexample :
    ¬ (((post_to_bluesky cfgOk baseEnv 1048576 "d" "s" "now").2).count
        NetCall.directoryLookup ≤ 1) := by
  decide

/-- Claim C7 (amended): the storage-node resolution is not cached — every
get_service_auth call repeats the directory lookup, so a publish attempt
whose upload is accepted and whose first poll response reports completion
performs the lookup exactly twice: once for the upload token and once for
the polling token. -/
theorem C7_resolution_repeated (cfg : BlueskyConfig) (env : Env) (sz : Nat)
    (d ss now pds : String) (b : Blob)
    (hc1 : cfg.handle ≠ "handle.bsky.social") (hc2 : cfg.password ≠ "")
    (hs : env.session.httpStatus = 200) (hsz : ¬ sz > size_ceiling_bytes)
    (h1 : env.directory.httpStatus = 200)
    (h2 : findPds env.directory.services = some pds)
    (h3 : env.serviceAuth.httpStatus = 200)
    (h8 : env.upload.httpStatus = 200) (h9 : truthy env.upload.jobId = true)
    (hc : classify (env.jobResps 0) = StepClass.terminal (PollOutcome.gotBlob b)) :
    ((get_service_auth env).2).count NetCall.directoryLookup = 1 ∧
    ((post_to_bluesky cfg env sz d ss now).2).count NetCall.directoryLookup = 2 := by
  constructor
  · rw [get_service_auth_ok env pds h1 h2 h3]
    rfl
  have hp : pollFrom env.jobResps 0 max_attempts = (PollOutcome.gotBlob b, 1, 0) := by
    have := pollFrom_terminal_at env.jobResps (PollOutcome.gotBlob b) 0 0 max_attempts
      (by decide) (fun i hi => absurd hi (Nat.not_lt_zero i)) (by simpa using hc)
    simpa using this
  have hup := upload_video_200 env pds (PollOutcome.gotBlob b) 1 0 h1 h2 h3 h8 h9 hp
  unfold post_to_bluesky
  rw [if_neg (by push_neg; exact ⟨hc1, hc2⟩)]
  rw [if_neg (not_not_intro hs)]
  rw [if_neg hsz]
  rw [hup]
  by_cases hcr : env.createRecord.httpStatus = 200 <;>
    simp [create_post_with_video, hcr, List.count_cons, List.count_append]

/-- Witness for the amended C7 in the all-healthy environment. -/
theorem C7_witness :
    ((get_service_auth baseEnv).2).count NetCall.directoryLookup = 1 ∧
    ((post_to_bluesky cfgOk baseEnv 1048576 "d" "s" "now").2).count
        NetCall.directoryLookup = 2 :=
  C7_resolution_repeated cfgOk baseEnv 1048576 "d" "s" "now" "did:web:pds.example.com" okBlob
    (by decide) (by decide) rfl (by decide) rfl (by decide) rfl rfl (by decide) (by decide)
